import Mathlib

/-! ginny-mongo: configuration translation and client lifecycle

A shallow embedding of `src/mongo.go`:

* `clientOptions` (lines 86-140), the translation of a `Config` into the
  driver's `ClientOptions`;
* `NewMongo`, `newClient`, `Close`, `Collection`, `DefaultDatabase`, the
  lifecycle of the `Mongo` manager, as state passing over a `World` that
  holds the Go heap, the driver's own state, the log of driver calls and the
  shutdown registry.

Go integers are kept as mathematical integers and every conversion wraps
explicitly to the 64 bits of its target type.
-/

namespace GinnyMongo

/-! ## Machine integers and durations -/

/-- Conversion of an integer to Go `int64`: the value modulo `2^64`, taken in
the signed range. This is what Go does when converting from any integer type
of at most 64 bits, and what `int64` multiplication does on overflow. -/
def wrapInt64 (x : Int) : Int := (x + 2 ^ 63) % 2 ^ 64 - 2 ^ 63

/-- Conversion of an unsigned value to Go `uint64`. -/
def wrapUint64 (x : Nat) : Nat := x % 2 ^ 64

/-- Go `time.Duration`: an `int64` count of nanoseconds. -/
abbrev Duration := Int

/-- Go `time.Second`. -/
def Second : Duration := 1000000000

/-- The Go expression `time.Duration(x) * time.Second`: a conversion to
`int64` followed by an `int64` multiplication. -/
def durationSeconds (x : Int) : Duration := wrapInt64 (wrapInt64 x * Second)

/-! ## Go maps -/

/-- A Go `map[string]string`. `none` is the nil map; `some es` lists the
entries in the order in which a `range` loop visits them (Go leaves that order
unspecified, so nothing below depends on it). -/
abbrev GoMap := Option (List (String × String))

/-- Go `len(m)` on a map: `0` for the nil map. -/
def GoMap.len : GoMap → Nat
  | none => 0
  | some es => es.length

/-- The entries a `range` loop over the map visits (none for the nil map). -/
def GoMap.range : GoMap → List (String × String)
  | none => []
  | some es => es

/-! ## Configuration -/

/-- Modelled from the spec: the declaration of the read-preference block of
`Config` is missing from the sources (spec §3). `Mode` is a Go `int` (it is
compared with the driver's mode constants converted to `int`); `MaxStaleness`
is an integer number of seconds whose Go type is at most 64 bits wide. -/
structure ReadPreference where
  Mode : Int
  MaxStaleness : Int
  Tags : GoMap
  deriving DecidableEq, Repr

/-- Modelled from the spec: the declaration of the authentication block of
`Config` is missing from the sources (spec §3). -/
structure Auth where
  Mechanism : String
  MechanismProperties : GoMap
  Source : String
  Username : String
  Password : String
  PasswordSet : Bool
  deriving DecidableEq, Repr

/-- Modelled from the spec: the declaration of `Config` is missing from the
sources (spec §3). The two timeouts are integer numbers of seconds of a Go
type at most 64 bits wide; the two pool sizes are unsigned. -/
structure Config where
  Hosts : List String
  ReplicaSet : String
  ReadPreference : ReadPreference
  Auth : Auth
  ConnectTimeout : Int
  MaxConnIdleTime : Int
  MaxPoolSize : Nat
  MinPoolSize : Nat
  deriving DecidableEq, Repr

/-! ## The driver's option values (external collaborator)

Only what `clientOptions` touches: the setters store their argument, an unset
option is a nil pointer (`none`). -/

/-- Driver `tag.Tag`. -/
structure Tag where
  Name : String
  Value : String
  deriving DecidableEq, Repr

/-- Driver `readpref.ReadPref`. -/
structure ReadPref where
  mode : Int
  maxStaleness : Duration
  maxStalenessSet : Bool
  tagSets : List (List Tag)
  deriving DecidableEq, Repr

/-- Driver `readpref.Option`: the two modifiers `clientOptions` builds. -/
inductive ReadPrefOption where
  | WithMaxStaleness (ms : Duration)
  | WithTagSets (tagSets : List (List Tag))
  deriving DecidableEq, Repr

/-- Driver `readpref.PrimaryMode` (the constants are `_ = iota` followed by
the five modes). -/
def readpref.PrimaryMode : Int := 1

/-- Driver `readpref.PrimaryPreferredMode`. -/
def readpref.PrimaryPreferredMode : Int := 2

/-- Driver `readpref.SecondaryMode`. -/
def readpref.SecondaryMode : Int := 3

/-- Driver `readpref.SecondaryPreferredMode`. -/
def readpref.SecondaryPreferredMode : Int := 4

/-- Driver `readpref.NearestMode`. -/
def readpref.NearestMode : Int := 5

/-- Applying one modifier to a read preference under construction. -/
def ReadPrefOption.apply (rp : ReadPref) : ReadPrefOption → ReadPref
  | .WithMaxStaleness ms => { rp with maxStaleness := ms, maxStalenessSet := true }
  | .WithTagSets ts => { rp with tagSets := ts }

/-- Driver `readpref.New`: rejects modifiers on mode primary, otherwise
applies the modifiers in order. `none` is the error result (nil read
preference). -/
def readpref.New (mode : Int) (opts : List ReadPrefOption) : Option ReadPref :=
  if mode = readpref.PrimaryMode ∧ opts.length ≠ 0 then none
  else some (opts.foldl ReadPrefOption.apply
    { mode := mode, maxStaleness := 0, maxStalenessSet := false, tagSets := [] })

/-- Driver `readpref.PrimaryPreferred`: `rp, _ := New(PrimaryPreferredMode, opts...)`. -/
def readpref.PrimaryPreferred (opts : List ReadPrefOption) : Option ReadPref :=
  readpref.New readpref.PrimaryPreferredMode opts

/-- Driver `readpref.Secondary`. -/
def readpref.Secondary (opts : List ReadPrefOption) : Option ReadPref :=
  readpref.New readpref.SecondaryMode opts

/-- Driver `readpref.SecondaryPreferred`. -/
def readpref.SecondaryPreferred (opts : List ReadPrefOption) : Option ReadPref :=
  readpref.New readpref.SecondaryPreferredMode opts

/-- Driver `readpref.Nearest`. -/
def readpref.Nearest (opts : List ReadPrefOption) : Option ReadPref :=
  readpref.New readpref.NearestMode opts

/-- Driver `options.Credential`. -/
structure Credential where
  AuthMechanism : String
  AuthMechanismProperties : GoMap
  AuthSource : String
  Username : String
  Password : String
  PasswordSet : Bool
  deriving DecidableEq, Repr

/-- Driver `options.ClientOptions`, restricted to the options set here. -/
structure ClientOptions where
  Hosts : List String
  ReplicaSet : Option String
  ReadPreference : Option ReadPref
  Auth : Option Credential
  ConnectTimeout : Option Duration
  MaxConnIdleTime : Option Duration
  MaxPoolSize : Option Nat
  MinPoolSize : Option Nat
  deriving DecidableEq, Repr

/-- Driver `options.Client()`: nothing set. -/
def options.Client : ClientOptions :=
  { Hosts := [], ReplicaSet := none, ReadPreference := none, Auth := none,
    ConnectTimeout := none, MaxConnIdleTime := none, MaxPoolSize := none,
    MinPoolSize := none }

def ClientOptions.SetHosts (opt : ClientOptions) (s : List String) : ClientOptions :=
  { opt with Hosts := s }

def ClientOptions.SetReplicaSet (opt : ClientOptions) (s : String) : ClientOptions :=
  { opt with ReplicaSet := some s }

def ClientOptions.SetReadPreference (opt : ClientOptions) (rp : Option ReadPref) :
    ClientOptions :=
  { opt with ReadPreference := rp }

def ClientOptions.SetAuth (opt : ClientOptions) (auth : Credential) : ClientOptions :=
  { opt with Auth := some auth }

def ClientOptions.SetConnectTimeout (opt : ClientOptions) (d : Duration) : ClientOptions :=
  { opt with ConnectTimeout := some d }

def ClientOptions.SetMaxConnIdleTime (opt : ClientOptions) (d : Duration) : ClientOptions :=
  { opt with MaxConnIdleTime := some d }

def ClientOptions.SetMaxPoolSize (opt : ClientOptions) (u : Nat) : ClientOptions :=
  { opt with MaxPoolSize := some u }

def ClientOptions.SetMinPoolSize (opt : ClientOptions) (u : Nat) : ClientOptions :=
  { opt with MinPoolSize := some u }

/-! ## `clientOptions` -/

/-- Lines 101-104 of `clientOptions`: `tags` starts empty and every entry the
`range` loop visits appends one `tag.Tag`. -/
def buildTags (m : GoMap) : List Tag :=
  (GoMap.range m).foldl (fun tags e => tags ++ [{ Name := e.1, Value := e.2 }]) []

/-- Lines 95-106 of `clientOptions`: the local `readPrefOpts`. -/
def readPrefOpts (config : Config) : List ReadPrefOption :=
  let readPrefOpts : List ReadPrefOption := []
  let readPrefOpts :=
    if config.ReadPreference.MaxStaleness > 0 then
      readPrefOpts ++ [.WithMaxStaleness (durationSeconds config.ReadPreference.MaxStaleness)]
    else readPrefOpts
  let readPrefOpts :=
    if GoMap.len config.ReadPreference.Tags > 0 then
      readPrefOpts ++ [.WithTagSets [buildTags config.ReadPreference.Tags]]
    else readPrefOpts
  readPrefOpts

/-- The function `clientOptions` of `src/mongo.go`. -/
def clientOptions (config : Config) : ClientOptions :=
  let opt := options.Client
  let opt := opt.SetHosts config.Hosts
  let opt := opt.SetReplicaSet config.ReplicaSet
  let readPrefOpts := readPrefOpts config
  let opt :=
    if config.ReadPreference.Mode = readpref.PrimaryPreferredMode then
      opt.SetReadPreference (readpref.PrimaryPreferred readPrefOpts)
    else if config.ReadPreference.Mode = readpref.SecondaryMode then
      opt.SetReadPreference (readpref.Secondary readPrefOpts)
    else if config.ReadPreference.Mode = readpref.SecondaryPreferredMode then
      opt.SetReadPreference (readpref.SecondaryPreferred readPrefOpts)
    else if config.ReadPreference.Mode = readpref.NearestMode then
      opt.SetReadPreference (readpref.Nearest readPrefOpts)
    else opt
  let opt :=
    if config.Auth.Mechanism ≠ "" ∨ GoMap.len config.Auth.MechanismProperties > 0 ∨
        config.Auth.Source ≠ "" ∨ config.Auth.Username ≠ "" ∨
        config.Auth.Password ≠ "" ∨ config.Auth.PasswordSet = true then
      opt.SetAuth
        { AuthMechanism := config.Auth.Mechanism
          AuthMechanismProperties := config.Auth.MechanismProperties
          AuthSource := config.Auth.Source
          Username := config.Auth.Username
          Password := config.Auth.Password
          PasswordSet := config.Auth.PasswordSet }
    else opt
  let opt := opt.SetConnectTimeout (durationSeconds config.ConnectTimeout)
  let opt := opt.SetMaxConnIdleTime (durationSeconds config.MaxConnIdleTime)
  let opt := opt.SetMaxPoolSize (wrapUint64 config.MaxPoolSize)
  let opt := opt.SetMinPoolSize (wrapUint64 config.MinPoolSize)
  opt

/-- A configuration with every field at its Go zero value. -/
def zeroConfig : Config :=
  { Hosts := [], ReplicaSet := ""
    ReadPreference := { Mode := 0, MaxStaleness := 0, Tags := none }
    Auth := { Mechanism := "", MechanismProperties := none, Source := "",
              Username := "", Password := "", PasswordSet := false }
    ConnectTimeout := 0, MaxConnIdleTime := 0, MaxPoolSize := 0, MinPoolSize := 0 }

/-! ## Manager lifecycle

Go pointers are addresses: a `*Mongo` is an index into the heap of the
`World`, a `*mongo.Client` is an identifier handed out by the driver. -/

/-- A `context.Context` value. -/
abbrev Context := Nat

/-- A non-nil Go `error` value. -/
abbrev GoError := String

/-- A non-nil `*mongo.Client`. -/
abbrev ClientPtr := Nat

/-- A non-nil `*Mongo`: the index of the struct in the heap. -/
abbrev MongoPtr := Nat

/-- The struct `Mongo`: the embedded `*mongo.Client` (`none` is nil) and the
field `defaultDatabase`. -/
structure Mongo where
  Client : Option ClientPtr
  defaultDatabase : String
  deriving DecidableEq, Repr

/-- Driver `readpref.Primary()`. -/
def readpref.Primary : ReadPref :=
  { mode := readpref.PrimaryMode, maxStaleness := 0, maxStalenessSet := false, tagSets := [] }

/-- One call into the driver, as recorded in the log of the world. -/
inductive DriverCall where
  | Connect (ctx : Context) (opts : ClientOptions)
  | Ping (ctx : Context) (client : ClientPtr) (rp : ReadPref)
  | Disconnect (ctx : Context) (client : ClientPtr)
  deriving DecidableEq, Repr

/-- The driver (external collaborator) as three oracles over its own state
`σ` (the network, the pools, the clock): `mongo.Connect`, `Client.Ping` and
`Client.Disconnect`. Each returns its Go result and the next driver state;
`none` in an error position is the nil error. -/
structure Driver (σ : Type) where
  Connect : σ → Context → ClientOptions → Except GoError ClientPtr × σ
  Ping : σ → Context → ClientPtr → ReadPref → Option GoError × σ
  Disconnect : σ → Context → ClientPtr → Option GoError × σ

/-- The closure that `NewMongo` hands to the shutdown registry, a function of
a context that returns `m.Close(ctx)`, represented by the pointer `m` it
captures. -/
inductive Closer where
  | mongoClose (m : MongoPtr)
  deriving DecidableEq, Repr

/-- The state a call runs in: the Go heap of `Mongo` structs, the state of the
driver, the log of driver calls made so far, and the closers held by the
process-wide shutdown registry of package `graceful`. -/
structure World (σ : Type) where
  heap : List Mongo
  driver : σ
  calls : List DriverCall
  closers : List Closer

/-- The assignment `m.Client = c` through the pointer `m`. -/
def World.setClient {σ : Type} (w : World σ) (m : MongoPtr) (c : Option ClientPtr) :
    World σ :=
  match w.heap[m]? with
  | none => w
  | some mg => { w with heap := w.heap.set m { mg with Client := c } }

/-- External `graceful.AddCloser`: the registry gains the closer at its end. -/
def graceful.AddCloser {σ : Type} (c : Closer) (w : World σ) : World σ :=
  { w with closers := w.closers ++ [c] }

/-- The method `newClient` of `src/mongo.go` (lines 58-70). -/
def newClient {σ : Type} (D : Driver σ) (_m : MongoPtr) (ctx : Context) (config : Config)
    (w : World σ) : Except GoError ClientPtr × World σ :=
  let opts := clientOptions config
  let r := D.Connect w.driver ctx opts
  let w := { w with driver := r.2, calls := w.calls ++ [DriverCall.Connect ctx opts] }
  match r.1 with
  | .error err => (.error err, w)
  | .ok client =>
    let p := D.Ping w.driver ctx client readpref.Primary
    let w := { w with driver := p.2, calls := w.calls ++ [DriverCall.Ping ctx client readpref.Primary] }
    match p.1 with
    | some err => (.error err, w)
    | none => (.ok client, w)

/-- The constructor `NewMongo` of `src/mongo.go` (lines 42-55). The result is
the Go pair `(*Mongo, error)`, `none` standing for nil in either place. -/
def NewMongo {σ : Type} (D : Driver σ) (ctx : Context) (config : Config) (w : World σ) :
    (Option MongoPtr × Option GoError) × World σ :=
  let m : MongoPtr := w.heap.length
  let w := { w with heap := w.heap ++ [{ Client := none, defaultDatabase := "" }] }
  match newClient D m ctx config w with
  | (.error err, w) => ((none, some err), w)
  | (.ok mongoClient, w) =>
    let w := graceful.AddCloser (.mongoClose m) w
    let w := w.setClient m (some mongoClient)
    ((some m, none), w)

/-- The method `Close` of `src/mongo.go` (lines 153-157). `none` is a Go
run-time fault: the receiver is not a live struct, or `Disconnect` is called
on the nil client. -/
def Close {σ : Type} (D : Driver σ) (m : MongoPtr) (ctx : Context) (w : World σ) :
    Option (Option GoError × World σ) :=
  match w.heap[m]? with
  | none => none
  | some mg =>
    match mg.Client with
    | none => none
    | some client =>
      let r := D.Disconnect w.driver ctx client
      let w := { w with driver := r.2, calls := w.calls ++ [DriverCall.Disconnect ctx client] }
      let w := w.setClient m none
      some (r.1, w)

/-- Running a registered closer at shutdown: the body of the closure. -/
def Closer.invoke {σ : Type} (D : Driver σ) (ctx : Context) (w : World σ) :
    Closer → Option (Option GoError × World σ)
  | .mongoClose m => Close D m ctx w

/-- Driver `*mongo.Database`: the client it belongs to and its name. -/
structure Database where
  client : ClientPtr
  name : String
  deriving DecidableEq, Repr

/-- Driver `*mongo.Collection`: its database and its name. -/
structure Collection where
  database : Database
  name : String
  deriving DecidableEq, Repr

/-- Driver `Client.Database(name)`; `none` is the fault on a nil client. -/
def mongoDatabase (c : Option ClientPtr) (name : String) : Option Database :=
  c.map fun client => { client := client, name := name }

/-- Driver `Database.Collection(name)`. -/
def Database.Collection (db : Database) (name : String) : Collection :=
  { database := db, name := name }

/-- The method `Collection` of `src/mongo.go` (lines 143-145), on the struct
the receiver points to. -/
def Mongo.Collection (m : Mongo) (colName : String) : Option Collection :=
  (mongoDatabase m.Client m.defaultDatabase).map fun db => db.Collection colName

/-- The method `DefaultDatabase` of `src/mongo.go` (lines 148-150). -/
def Mongo.DefaultDatabase (m : Mongo) : Option Database :=
  mongoDatabase m.Client m.defaultDatabase

/-! ## Concrete inputs used by the witnesses -/

/-- A driver whose three calls all succeed; `Connect` returns client `7`. -/
def okDriver : Driver Unit :=
  { Connect := fun s _ _ => (.ok 7, s)
    Ping := fun s _ _ _ => (none, s)
    Disconnect := fun s _ _ => (none, s) }

/-- A driver whose `Connect` fails. -/
def dialFailDriver : Driver Unit :=
  { Connect := fun s _ _ => (.error "dial tcp: connection refused", s)
    Ping := fun s _ _ _ => (none, s)
    Disconnect := fun s _ _ => (none, s) }

/-- A driver whose `Connect` succeeds and whose `Ping` and `Disconnect` fail. -/
def pingFailDriver : Driver Unit :=
  { Connect := fun s _ _ => (.ok 7, s)
    Ping := fun s _ _ _ => (some "server selection timeout", s)
    Disconnect := fun s _ _ => (some "client is disconnected", s) }

/-- The world at process start: nothing allocated, called or registered. -/
def emptyWorld : World Unit :=
  { heap := [], driver := (), calls := [], closers := [] }

/-- A world in which one manager, at address `0`, holds client `7` and the
default-database name `app`. -/
def liveWorld : World Unit :=
  { heap := [{ Client := some 7, defaultDatabase := "app" }], driver := (), calls := [],
    closers := [] }

/-- The four modes for which `clientOptions` has a `case`. -/
abbrev IsExplicitMode (mode : Int) : Prop :=
  mode = readpref.PrimaryPreferredMode ∨ mode = readpref.SecondaryMode ∨
    mode = readpref.SecondaryPreferredMode ∨ mode = readpref.NearestMode

/-! ## Auxiliary facts -/

theorem wrapInt64_id (x : Int) (h1 : -9223372036854775808 ≤ x)
    (h2 : x ≤ 9223372036854775807) : wrapInt64 x = x := by
  unfold wrapInt64
  norm_num
  omega

theorem durationSeconds_exact (x : Int) (h1 : -9223372036 ≤ x) (h2 : x ≤ 9223372036) :
    durationSeconds x = x * Second := by
  unfold durationSeconds Second
  rw [wrapInt64_id x (by omega) (by omega)]
  exact wrapInt64_id _ (by omega) (by omega)

theorem foldl_append_tags (es : List (String × String)) (init : List Tag) :
    es.foldl (fun tags e => tags ++ [({ Name := e.1, Value := e.2 } : Tag)]) init
      = init ++ es.map (fun e => ({ Name := e.1, Value := e.2 } : Tag)) := by
  induction es generalizing init with
  | nil => simp
  | cons e es ih => simp [List.foldl_cons, ih]

theorem buildTags_map (m : GoMap) :
    buildTags m = (GoMap.range m).map (fun e => ({ Name := e.1, Value := e.2 } : Tag)) := by
  unfold buildTags
  rw [foldl_append_tags]
  simp

theorem auth_field (config : Config) :
    (clientOptions config).Auth =
      if config.Auth.Mechanism ≠ "" ∨ GoMap.len config.Auth.MechanismProperties > 0 ∨
          config.Auth.Source ≠ "" ∨ config.Auth.Username ≠ "" ∨
          config.Auth.Password ≠ "" ∨ config.Auth.PasswordSet = true then
        some { AuthMechanism := config.Auth.Mechanism
               AuthMechanismProperties := config.Auth.MechanismProperties
               AuthSource := config.Auth.Source
               Username := config.Auth.Username
               Password := config.Auth.Password
               PasswordSet := config.Auth.PasswordSet }
      else none := by
  unfold clientOptions
  simp only [ClientOptions.SetMinPoolSize, ClientOptions.SetMaxPoolSize,
    ClientOptions.SetMaxConnIdleTime, ClientOptions.SetConnectTimeout, ClientOptions.SetAuth,
    ClientOptions.SetReadPreference, ClientOptions.SetReplicaSet, ClientOptions.SetHosts,
    options.Client]
  split_ifs <;> rfl

theorem readPreference_field (config : Config) :
    (clientOptions config).ReadPreference =
      if config.ReadPreference.Mode = readpref.PrimaryPreferredMode then
        readpref.PrimaryPreferred (readPrefOpts config)
      else if config.ReadPreference.Mode = readpref.SecondaryMode then
        readpref.Secondary (readPrefOpts config)
      else if config.ReadPreference.Mode = readpref.SecondaryPreferredMode then
        readpref.SecondaryPreferred (readPrefOpts config)
      else if config.ReadPreference.Mode = readpref.NearestMode then
        readpref.Nearest (readPrefOpts config)
      else none := by
  unfold clientOptions
  simp only [ClientOptions.SetMinPoolSize, ClientOptions.SetMaxPoolSize,
    ClientOptions.SetMaxConnIdleTime, ClientOptions.SetConnectTimeout, ClientOptions.SetAuth,
    ClientOptions.SetReadPreference, ClientOptions.SetReplicaSet, ClientOptions.SetHosts,
    options.Client]
  split_ifs <;> rfl

theorem pool_timeout_fields (config : Config) :
    (clientOptions config).ConnectTimeout = some (durationSeconds config.ConnectTimeout) ∧
    (clientOptions config).MaxConnIdleTime = some (durationSeconds config.MaxConnIdleTime) ∧
    (clientOptions config).MaxPoolSize = some (wrapUint64 config.MaxPoolSize) ∧
    (clientOptions config).MinPoolSize = some (wrapUint64 config.MinPoolSize) := by
  unfold clientOptions
  simp only [ClientOptions.SetMinPoolSize, ClientOptions.SetMaxPoolSize,
    ClientOptions.SetMaxConnIdleTime, ClientOptions.SetConnectTimeout, and_self]

/-- The read preference the four explicit constructors build from the
modifier list of a configuration. -/
theorem new_readPrefOpts (config : Config) (mode : Int) (h : mode ≠ readpref.PrimaryMode) :
    readpref.New mode (readPrefOpts config) = some
      { mode := mode
        maxStaleness :=
          if config.ReadPreference.MaxStaleness > 0 then
            durationSeconds config.ReadPreference.MaxStaleness else 0
        maxStalenessSet := decide (config.ReadPreference.MaxStaleness > 0)
        tagSets :=
          if GoMap.len config.ReadPreference.Tags > 0 then
            [buildTags config.ReadPreference.Tags] else [] } := by
  unfold readpref.New readPrefOpts
  simp only [h, false_and, if_false]
  by_cases h1 : config.ReadPreference.MaxStaleness > 0 <;>
    by_cases h2 : GoMap.len config.ReadPreference.Tags > 0 <;>
    simp [h1, h2, ReadPrefOption.apply]

/-- For an explicit mode the options carry the read preference built by
`readpref.New` for that very mode. -/
theorem readPreference_explicit (config : Config)
    (h : IsExplicitMode config.ReadPreference.Mode) :
    (clientOptions config).ReadPreference =
      readpref.New config.ReadPreference.Mode (readPrefOpts config) := by
  rw [readPreference_field]
  unfold readpref.PrimaryPreferred readpref.Secondary readpref.SecondaryPreferred
    readpref.Nearest
  rcases h with h | h | h | h <;> rw [h] <;>
    simp [readpref.PrimaryPreferredMode, readpref.SecondaryMode,
      readpref.SecondaryPreferredMode, readpref.NearestMode]

theorem explicit_ne_primary (mode : Int) (h : IsExplicitMode mode) :
    mode ≠ readpref.PrimaryMode := by
  rcases h with h | h | h | h <;> rw [h] <;>
    simp [readpref.PrimaryPreferredMode, readpref.SecondaryMode,
      readpref.SecondaryPreferredMode, readpref.NearestMode, readpref.PrimaryMode]

/-! ## Authentication -/

/-- C1: when Mechanism, Source, Username and Password are empty,
MechanismProperties is nil or has no entries and PasswordSet is false,
`clientOptions` attaches no credential, whatever the other fields are. -/
theorem clientOptions_no_credential (config : Config)
    (hMech : config.Auth.Mechanism = "")
    (hProps : config.Auth.MechanismProperties = none ∨
      config.Auth.MechanismProperties = some [])
    (hSource : config.Auth.Source = "")
    (hUser : config.Auth.Username = "")
    (hPass : config.Auth.Password = "")
    (hSet : config.Auth.PasswordSet = false) :
    (clientOptions config).Auth = none := by
  have hlen : GoMap.len config.Auth.MechanismProperties = 0 := by
    rcases hProps with h | h <;> rw [h] <;> rfl
  rw [auth_field]
  simp [hMech, hlen, hSource, hUser, hPass, hSet]

/-- Witness of C1: a configuration with hosts, replica set, read preference,
timeouts and pool sizes set, and an empty authentication block with an
allocated but empty property map. -/
theorem clientOptions_no_credential_witness :
    (clientOptions
      { zeroConfig with
        Hosts := ["db0:27017", "db1:27017"], ReplicaSet := "rs0"
        ReadPreference := { Mode := 3, MaxStaleness := 90, Tags := some [("region", "us")] }
        Auth := { zeroConfig.Auth with MechanismProperties := some [] }
        ConnectTimeout := 10, MaxPoolSize := 100 }).Auth = none :=
  clientOptions_no_credential _ rfl (Or.inr rfl) rfl rfl rfl rfl

/-- C2: when at least one of Mechanism, MechanismProperties, Source,
Username, Password is non-empty or PasswordSet is true, `clientOptions`
attaches a credential whose six fields equal the six fields of the
authentication block, those left at their default included. -/
theorem clientOptions_credential (config : Config)
    (h : config.Auth.Mechanism ≠ "" ∨ GoMap.len config.Auth.MechanismProperties > 0 ∨
      config.Auth.Source ≠ "" ∨ config.Auth.Username ≠ "" ∨
      config.Auth.Password ≠ "" ∨ config.Auth.PasswordSet = true) :
    ∃ cred, (clientOptions config).Auth = some cred ∧
      cred.AuthMechanism = config.Auth.Mechanism ∧
      cred.AuthMechanismProperties = config.Auth.MechanismProperties ∧
      cred.AuthSource = config.Auth.Source ∧
      cred.Username = config.Auth.Username ∧
      cred.Password = config.Auth.Password ∧
      cred.PasswordSet = config.Auth.PasswordSet := by
  rw [auth_field, if_pos h]
  exact ⟨_, rfl, rfl, rfl, rfl, rfl, rfl, rfl⟩

/-- Witness of C2: only PasswordSet is set; the credential is attached with
the five other fields at their defaults. -/
theorem clientOptions_credential_witness :
    ∃ cred, (clientOptions
        { zeroConfig with Auth := { zeroConfig.Auth with PasswordSet := true } }).Auth
          = some cred ∧
      cred.AuthMechanism = "" ∧ cred.AuthMechanismProperties = none ∧
      cred.AuthSource = "" ∧ cred.Username = "" ∧ cred.Password = "" ∧
      cred.PasswordSet = true :=
  clientOptions_credential
    { zeroConfig with Auth := { zeroConfig.Auth with PasswordSet := true } }
    (Or.inr (Or.inr (Or.inr (Or.inr (Or.inr rfl)))))

/-! ## Read preference -/

/-- C3: `clientOptions` sets a read preference exactly when Mode is one of
primary-preferred, secondary, secondary-preferred, nearest; a read preference
that is set has mode Mode; for every other Mode none is set, so that no
staleness and no tag set reach the options, as with Mode primary and
MaxStaleness 30. -/
theorem clientOptions_readPreference_mode (config : Config) :
    ((∃ rp, (clientOptions config).ReadPreference = some rp) ↔
        IsExplicitMode config.ReadPreference.Mode) ∧
    (∀ rp, (clientOptions config).ReadPreference = some rp →
        rp.mode = config.ReadPreference.Mode) ∧
    (¬ IsExplicitMode config.ReadPreference.Mode →
        (clientOptions config).ReadPreference = none) ∧
    (clientOptions { config with
        ReadPreference := { config.ReadPreference with
          Mode := readpref.PrimaryMode, MaxStaleness := 30 } }).ReadPreference = none := by
  have hnone : ∀ c : Config, ¬ IsExplicitMode c.ReadPreference.Mode →
      (clientOptions c).ReadPreference = none := by
    intro c hc
    rw [readPreference_field]
    simp only [IsExplicitMode, not_or] at hc
    simp [hc.1, hc.2.1, hc.2.2.1, hc.2.2.2]
  have hsome : IsExplicitMode config.ReadPreference.Mode →
      ∃ rp, (clientOptions config).ReadPreference = some rp ∧
        rp.mode = config.ReadPreference.Mode := by
    intro hm
    rw [readPreference_explicit config hm,
      new_readPrefOpts config _ (explicit_ne_primary _ hm)]
    exact ⟨_, rfl, rfl⟩
  refine ⟨⟨?_, ?_⟩, ?_, hnone config, ?_⟩
  · rintro ⟨rp, hrp⟩
    by_contra hm
    rw [hnone config hm] at hrp
    exact Option.noConfusion hrp
  · intro hm
    obtain ⟨rp, hrp, _⟩ := hsome hm
    exact ⟨rp, hrp⟩
  · intro rp hrp
    by_cases hm : IsExplicitMode config.ReadPreference.Mode
    · obtain ⟨rp2, hrp2, hmode⟩ := hsome hm
      rw [hrp2] at hrp
      cases hrp
      exact hmode
    · rw [hnone config hm] at hrp
      exact Option.noConfusion hrp
  · apply hnone
    simp [IsExplicitMode, readpref.PrimaryPreferredMode, readpref.SecondaryMode,
      readpref.SecondaryPreferredMode, readpref.NearestMode, readpref.PrimaryMode]

/-- Witness of C3 at Mode 7 (out of range) with staleness and tags populated. -/
theorem clientOptions_readPreference_mode_witness :
    (clientOptions { zeroConfig with
      ReadPreference :=
        { Mode := 7, MaxStaleness := 30, Tags := some [("region", "us")] } }).ReadPreference
      = none :=
  (clientOptions_readPreference_mode { zeroConfig with
      ReadPreference :=
        { Mode := 7, MaxStaleness := 30, Tags := some [("region", "us")] } }).2.2.1
    (by decide)

/-- C4, as stated, fails: with MaxStaleness 9223372037 and Mode nearest the
product with `10^9` leaves the range of `int64`, and the read preference
carries a negative staleness instead of 9223372037 seconds. -/
theorem clientOptions_maxStaleness_wraps :
    (clientOptions { zeroConfig with
      ReadPreference :=
        { Mode := readpref.NearestMode, MaxStaleness := 9223372037, Tags := none } }).ReadPreference
      = some { mode := 5, maxStaleness := -9223372036709551616, maxStalenessSet := true,
               tagSets := [] } ∧
    (-9223372036709551616 : Int) ≠ 9223372037 * Second := by
  constructor
  · rfl
  · decide

/-- C4, amended: with MaxStaleness 0 the modifier list holds no max-staleness
modifier, whatever the Mode; with 0 < MaxStaleness ≤ 9223372036 and an explicit
Mode the read preference carries a max staleness of exactly MaxStaleness
seconds. -/
theorem clientOptions_maxStaleness (config : Config) :
    (config.ReadPreference.MaxStaleness = 0 →
        ∀ ms, ReadPrefOption.WithMaxStaleness ms ∉ readPrefOpts config) ∧
    (0 < config.ReadPreference.MaxStaleness →
      config.ReadPreference.MaxStaleness ≤ 9223372036 →
      IsExplicitMode config.ReadPreference.Mode →
        ∃ rp, (clientOptions config).ReadPreference = some rp ∧
          rp.maxStalenessSet = true ∧
          rp.maxStaleness = config.ReadPreference.MaxStaleness * Second) := by
  constructor
  · intro h0 ms
    unfold readPrefOpts
    by_cases h2 : GoMap.len config.ReadPreference.Tags > 0 <;> simp [h0, h2]
  · intro hpos hle hm
    rw [readPreference_explicit config hm,
      new_readPrefOpts config _ (explicit_ne_primary _ hm)]
    refine ⟨_, rfl, ?_, ?_⟩
    · simp [hpos]
    · simp only [gt_iff_lt, hpos, if_true]
      exact durationSeconds_exact _ (by omega) hle

/-- Witness of C4: MaxStaleness 45 with Mode nearest gives 45 seconds. -/
theorem clientOptions_maxStaleness_witness :
    ∃ rp, (clientOptions { zeroConfig with
        ReadPreference :=
          { Mode := readpref.NearestMode, MaxStaleness := 45, Tags := none } }).ReadPreference
        = some rp ∧
      rp.maxStalenessSet = true ∧ rp.maxStaleness = 45 * Second :=
  (clientOptions_maxStaleness { zeroConfig with
      ReadPreference :=
        { Mode := readpref.NearestMode, MaxStaleness := 45, Tags := none } }).2
    (by decide) (by decide) (Or.inr (Or.inr (Or.inr rfl)))

/-- C5: with a non-empty Tags mapping and an explicit Mode the read preference
carries exactly one tag set, holding one tag (Name the key, Value the value)
per entry of the mapping and nothing else; with a nil or empty mapping no
tag-set modifier is added. -/
theorem clientOptions_tagSets (config : Config) :
    (0 < GoMap.len config.ReadPreference.Tags →
      IsExplicitMode config.ReadPreference.Mode →
        ∃ rp ts, (clientOptions config).ReadPreference = some rp ∧
          rp.tagSets = [ts] ∧
          ts = (GoMap.range config.ReadPreference.Tags).map
            (fun e => ({ Name := e.1, Value := e.2 } : Tag)) ∧
          ts.length = GoMap.len config.ReadPreference.Tags ∧
          ∀ t : Tag, t ∈ ts ↔ (t.Name, t.Value) ∈ GoMap.range config.ReadPreference.Tags) ∧
    ((config.ReadPreference.Tags = none ∨ config.ReadPreference.Tags = some []) →
        (∀ sets, ReadPrefOption.WithTagSets sets ∉ readPrefOpts config) ∧
        ∀ rp, (clientOptions config).ReadPreference = some rp → rp.tagSets = []) := by
  constructor
  · intro hlen hm
    rw [readPreference_explicit config hm,
      new_readPrefOpts config _ (explicit_ne_primary _ hm)]
    refine ⟨_, _, rfl, ?_, buildTags_map _, ?_, ?_⟩
    · simp [hlen]
    · rw [buildTags_map, List.length_map]
      cases config.ReadPreference.Tags <;> rfl
    · intro t
      rw [buildTags_map, List.mem_map]
      constructor
      · rintro ⟨e, he, rfl⟩
        exact he
      · intro ht
        exact ⟨(t.Name, t.Value), ht, rfl⟩
  · intro hempty
    have hlen : GoMap.len config.ReadPreference.Tags = 0 := by
      rcases hempty with h | h <;> rw [h] <;> rfl
    constructor
    · intro sets
      unfold readPrefOpts
      by_cases h1 : config.ReadPreference.MaxStaleness > 0 <;> simp [h1, hlen]
    · intro rp hrp
      by_cases hm : IsExplicitMode config.ReadPreference.Mode
      · rw [readPreference_explicit config hm,
          new_readPrefOpts config _ (explicit_ne_primary _ hm)] at hrp
        cases hrp
        simp [hlen]
      · rw [readPreference_field] at hrp
        simp only [IsExplicitMode, not_or] at hm
        simp [hm.1, hm.2.1, hm.2.2.1, hm.2.2.2] at hrp

/-- Witness of C5: Tags region=us with Mode secondary. -/
theorem clientOptions_tagSets_witness :
    ∃ rp ts, (clientOptions { zeroConfig with
        ReadPreference :=
          { Mode := readpref.SecondaryMode, MaxStaleness := 0,
            Tags := some [("region", "us")] } }).ReadPreference = some rp ∧
      rp.tagSets = [ts] ∧
      ts = [({ Name := "region", Value := "us" } : Tag)] ∧
      ts.length = 1 ∧
      ∀ t : Tag, t ∈ ts ↔ (t.Name, t.Value) ∈ [("region", "us")] :=
  (clientOptions_tagSets { zeroConfig with
      ReadPreference :=
        { Mode := readpref.SecondaryMode, MaxStaleness := 0,
          Tags := some [("region", "us")] } }).1
    (by decide) (Or.inr (Or.inl rfl))

/-! ## Timeouts and pool sizes -/

/-- C10, as stated, fails: with ConnectTimeout 9223372037 the product with
`10^9` wraps around in `int64`, and the connect timeout of the options is
negative instead of 9223372037 seconds; the same happens to the max idle time
with MaxConnIdleTime 9223372037. -/
theorem clientOptions_connectTimeout_wraps :
    ((clientOptions { zeroConfig with ConnectTimeout := 9223372037 }).ConnectTimeout
      = some (-9223372036709551616) ∧
    (-9223372036709551616 : Int) ≠ 9223372037 * Second) ∧
    (clientOptions { zeroConfig with MaxConnIdleTime := 9223372037 }).MaxConnIdleTime
      = some (-9223372036709551616) := by
  refine ⟨⟨?_, ?_⟩, ?_⟩
  · rfl
  · decide
  · rfl

/-- C10, amended: for every configuration, each option on its own. When
ConnectTimeout lies between -9223372036 and 9223372036 the options carry a
connect timeout of exactly ConnectTimeout seconds; when MaxConnIdleTime lies
between these bounds they carry a max idle time of exactly MaxConnIdleTime
seconds; the max and min pool sizes (unsigned, at most 64 bits) are carried
unchanged whatever the timeouts are, with no comparison of one with the
other. -/
theorem clientOptions_timeouts_pools (config : Config) :
    (-9223372036 ≤ config.ConnectTimeout → config.ConnectTimeout ≤ 9223372036 →
      (clientOptions config).ConnectTimeout = some (config.ConnectTimeout * Second)) ∧
    (-9223372036 ≤ config.MaxConnIdleTime → config.MaxConnIdleTime ≤ 9223372036 →
      (clientOptions config).MaxConnIdleTime = some (config.MaxConnIdleTime * Second)) ∧
    (config.MaxPoolSize < 2 ^ 64 →
      (clientOptions config).MaxPoolSize = some config.MaxPoolSize) ∧
    (config.MinPoolSize < 2 ^ 64 →
      (clientOptions config).MinPoolSize = some config.MinPoolSize) := by
  obtain ⟨h1, h2, h3, h4⟩ := pool_timeout_fields config
  refine ⟨?_, ?_, ?_, ?_⟩
  · intro hc1 hc2
    rw [h1, durationSeconds_exact _ hc1 hc2]
  · intro hi1 hi2
    rw [h2, durationSeconds_exact _ hi1 hi2]
  · intro hmax
    rw [h3]
    unfold wrapUint64
    rw [Nat.mod_eq_of_lt hmax]
  · intro hmin
    rw [h4]
    unfold wrapUint64
    rw [Nat.mod_eq_of_lt hmin]

/-- Witness of C10: a connect timeout that wraps leaves the three other
options exact: the idle time is 300 seconds, and the minimum pool size, above
the maximum, is passed through as it is; with a connect timeout of 10 the
option is 10 seconds. -/
theorem clientOptions_timeouts_pools_witness :
    ((clientOptions { zeroConfig with
        ConnectTimeout := 9223372037, MaxConnIdleTime := 300,
        MaxPoolSize := 5, MinPoolSize := 10 }).MaxConnIdleTime = some (300 * Second) ∧
      (clientOptions { zeroConfig with
        ConnectTimeout := 9223372037, MaxConnIdleTime := 300,
        MaxPoolSize := 5, MinPoolSize := 10 }).MaxPoolSize = some 5 ∧
      (clientOptions { zeroConfig with
        ConnectTimeout := 9223372037, MaxConnIdleTime := 300,
        MaxPoolSize := 5, MinPoolSize := 10 }).MinPoolSize = some 10) ∧
    (clientOptions { zeroConfig with ConnectTimeout := 10 }).ConnectTimeout
      = some (10 * Second) :=
  ⟨⟨(clientOptions_timeouts_pools { zeroConfig with
        ConnectTimeout := 9223372037, MaxConnIdleTime := 300,
        MaxPoolSize := 5, MinPoolSize := 10 }).2.1 (by decide) (by decide),
    (clientOptions_timeouts_pools { zeroConfig with
        ConnectTimeout := 9223372037, MaxConnIdleTime := 300,
        MaxPoolSize := 5, MinPoolSize := 10 }).2.2.1 (by decide),
    (clientOptions_timeouts_pools { zeroConfig with
        ConnectTimeout := 9223372037, MaxConnIdleTime := 300,
        MaxPoolSize := 5, MinPoolSize := 10 }).2.2.2 (by decide)⟩,
   (clientOptions_timeouts_pools { zeroConfig with ConnectTimeout := 10 }).1
     (by decide) (by decide)⟩

/-! ## Manager lifecycle -/

theorem set_last (l : List Mongo) (a b : Mongo) :
    (l ++ [a]).set l.length b = l ++ [b] := by
  induction l with
  | nil => rfl
  | cons x xs ih => simp [List.set, ih]

theorem getElem?_last (l : List Mongo) (a : Mongo) : (l ++ [a])[l.length]? = some a := by
  simp

/-- The whole effect of `NewMongo` when `Connect` and `Ping` succeed. -/
theorem NewMongo_ok {σ : Type} (D : Driver σ) (ctx : Context) (config : Config)
    (w : World σ) (client : ClientPtr)
    (hconn : (D.Connect w.driver ctx (clientOptions config)).1 = .ok client)
    (hping : (D.Ping (D.Connect w.driver ctx (clientOptions config)).2 ctx client
      readpref.Primary).1 = none) :
    NewMongo D ctx config w =
      ((some w.heap.length, none),
        { heap := w.heap ++ [{ Client := some client, defaultDatabase := "" }]
          driver := (D.Ping (D.Connect w.driver ctx (clientOptions config)).2 ctx client
            readpref.Primary).2
          calls := w.calls ++ [DriverCall.Connect ctx (clientOptions config)] ++
            [DriverCall.Ping ctx client readpref.Primary]
          closers := w.closers ++ [Closer.mongoClose w.heap.length] }) := by
  unfold NewMongo newClient
  simp only [hconn, hping, graceful.AddCloser, World.setClient, getElem?_last, set_last]

/-- The whole effect of `Close` on a manager that holds a client. -/
theorem Close_ok {σ : Type} (D : Driver σ) (w : World σ) (m : MongoPtr) (mg : Mongo)
    (client : ClientPtr) (ctx : Context)
    (hm : w.heap[m]? = some mg) (hc : mg.Client = some client) :
    Close D m ctx w = some ((D.Disconnect w.driver ctx client).1,
      { heap := w.heap.set m { mg with Client := none }
        driver := (D.Disconnect w.driver ctx client).2
        calls := w.calls ++ [DriverCall.Disconnect ctx client]
        closers := w.closers }) := by
  unfold Close
  simp only [hm, hc, World.setClient]

theorem getElem?_set_same (l : List Mongo) (m : Nat) (a b : Mongo) (h : l[m]? = some a) :
    (l.set m b)[m]? = some b := by
  have hlt : m < l.length := by
    by_contra hge
    rw [List.getElem?_eq_none (by omega)] at h
    exact Option.noConfusion h
  simp [List.getElem?_set, hlt]

/-- C6: on a manager that holds a client, `Close` calls `Disconnect` on that
client, leaves the stored handle nil whether `Disconnect` returned an error or
not, returns exactly what `Disconnect` returned, and leaves the
default-database name as it was. -/
theorem Close_clears_handle {σ : Type} (D : Driver σ) (w : World σ) (m : MongoPtr)
    (mg : Mongo) (client : ClientPtr) (ctx : Context)
    (hm : w.heap[m]? = some mg) (hc : mg.Client = some client) :
    ∃ w2, Close D m ctx w = some ((D.Disconnect w.driver ctx client).1, w2) ∧
      w2.heap[m]? = some { Client := none, defaultDatabase := mg.defaultDatabase } ∧
      w2.calls = w.calls ++ [DriverCall.Disconnect ctx client] ∧
      w2.driver = (D.Disconnect w.driver ctx client).2 ∧
      w2.closers = w.closers := by
  refine ⟨_, Close_ok D w m mg client ctx hm hc, ?_, rfl, rfl, rfl⟩
  exact getElem?_set_same _ _ _ _ hm

/-- Witness of C6, with a `Disconnect` that fails: the error comes back and
the handle is nil all the same. -/
theorem Close_clears_handle_witness :
    ∃ w2, Close pingFailDriver 0 4 liveWorld = some (some "client is disconnected", w2) ∧
      w2.heap[0]? = some { Client := none, defaultDatabase := "app" } ∧
      w2.calls = [DriverCall.Disconnect 4 7] ∧
      w2.driver = () ∧
      w2.closers = [] :=
  Close_clears_handle pingFailDriver liveWorld 0
    { Client := some 7, defaultDatabase := "app" } 7 4 rfl rfl

/-- C7: when `Connect` fails, or `Connect` succeeds and `Ping` fails,
`NewMongo` returns a nil manager with exactly the error of the failing call,
has called `Connect` once and `Ping` at most once (once exactly when `Connect`
succeeded), and leaves the shutdown registry as it was. -/
theorem NewMongo_failure {σ : Type} (D : Driver σ) (ctx : Context) (config : Config)
    (w : World σ) (err : GoError)
    (h : (D.Connect w.driver ctx (clientOptions config)).1 = .error err ∨
      ∃ client, (D.Connect w.driver ctx (clientOptions config)).1 = .ok client ∧
        (D.Ping (D.Connect w.driver ctx (clientOptions config)).2 ctx client
          readpref.Primary).1 = some err) :
    (NewMongo D ctx config w).1 = (none, some err) ∧
    (NewMongo D ctx config w).2.closers = w.closers ∧
    (NewMongo D ctx config w).2.calls =
      w.calls ++ [DriverCall.Connect ctx (clientOptions config)] ++
        (match (D.Connect w.driver ctx (clientOptions config)).1 with
          | .error _ => []
          | .ok client => [DriverCall.Ping ctx client readpref.Primary]) := by
  rcases h with h | ⟨client, h, hp⟩
  · unfold NewMongo newClient
    simp only [h, List.append_nil, and_self]
  · unfold NewMongo newClient
    simp only [h, hp, and_self]

/-- Witness of C7, once with a failing `Connect` and once with a failing
`Ping`, both at process start. -/
theorem NewMongo_failure_witness :
    ((NewMongo dialFailDriver 3 zeroConfig emptyWorld).1
        = (none, some "dial tcp: connection refused") ∧
      (NewMongo dialFailDriver 3 zeroConfig emptyWorld).2.closers = [] ∧
      (NewMongo dialFailDriver 3 zeroConfig emptyWorld).2.calls
        = [DriverCall.Connect 3 (clientOptions zeroConfig)]) ∧
    ((NewMongo pingFailDriver 3 zeroConfig emptyWorld).1
        = (none, some "server selection timeout") ∧
      (NewMongo pingFailDriver 3 zeroConfig emptyWorld).2.closers = [] ∧
      (NewMongo pingFailDriver 3 zeroConfig emptyWorld).2.calls
        = [DriverCall.Connect 3 (clientOptions zeroConfig),
           DriverCall.Ping 3 7 readpref.Primary]) :=
  ⟨NewMongo_failure dialFailDriver 3 zeroConfig emptyWorld _ (Or.inl rfl),
   NewMongo_failure pingFailDriver 3 zeroConfig emptyWorld _ (Or.inr ⟨7, rfl, rfl⟩)⟩

/-- C8: when `Connect` and `Ping` succeed, `NewMongo` returns a nil error and
a manager whose handle is the connected client, and the shutdown registry
gains exactly one closer at its end; invoking that closer is `Close` on the
returned manager, which disconnects the connected client and clears the
handle. -/
theorem NewMongo_success {σ : Type} (D : Driver σ) (ctx : Context) (config : Config)
    (w : World σ) (client : ClientPtr)
    (hconn : (D.Connect w.driver ctx (clientOptions config)).1 = .ok client)
    (hping : (D.Ping (D.Connect w.driver ctx (clientOptions config)).2 ctx client
      readpref.Primary).1 = none) :
    ∃ m mg, (NewMongo D ctx config w).1 = (some m, none) ∧
      (NewMongo D ctx config w).2.heap[m]? = some mg ∧
      mg.Client = some client ∧
      (NewMongo D ctx config w).2.closers = w.closers ++ [Closer.mongoClose m] ∧
      (∀ (ctx2 : Context) (w2 : World σ),
        Closer.invoke D ctx2 w2 (Closer.mongoClose m) = Close D m ctx2 w2) ∧
      ∀ ctx2 : Context, ∃ w3,
        Closer.invoke D ctx2 (NewMongo D ctx config w).2 (Closer.mongoClose m)
          = some ((D.Disconnect (NewMongo D ctx config w).2.driver ctx2 client).1, w3) ∧
        w3.calls = (NewMongo D ctx config w).2.calls ++ [DriverCall.Disconnect ctx2 client] ∧
        ∃ mg3, w3.heap[m]? = some mg3 ∧ mg3.Client = none := by
  rw [NewMongo_ok D ctx config w client hconn hping]
  refine ⟨w.heap.length, { Client := some client, defaultDatabase := "" }, rfl,
    getElem?_last _ _, rfl, rfl, fun _ _ => rfl, ?_⟩
  intro ctx2
  refine ⟨_, Close_ok D _ w.heap.length _ client ctx2 (getElem?_last _ _) rfl, rfl, ?_⟩
  exact ⟨_, getElem?_set_same _ _ _ _ (getElem?_last _ _), rfl⟩

/-- Witness of C8: at process start, with a driver whose calls succeed, the
manager sits at address `0`, holds client `7`, and the registry holds its
closer alone. -/
theorem NewMongo_success_witness :
    ∃ m mg, (NewMongo okDriver 3 zeroConfig emptyWorld).1 = (some m, none) ∧
      (NewMongo okDriver 3 zeroConfig emptyWorld).2.heap[m]? = some mg ∧
      mg.Client = some 7 ∧
      (NewMongo okDriver 3 zeroConfig emptyWorld).2.closers = [] ++ [Closer.mongoClose m] ∧
      (∀ (ctx2 : Context) (w2 : World Unit),
        Closer.invoke okDriver ctx2 w2 (Closer.mongoClose m) = Close okDriver m ctx2 w2) ∧
      ∀ ctx2 : Context, ∃ w3,
        Closer.invoke okDriver ctx2 (NewMongo okDriver 3 zeroConfig emptyWorld).2
            (Closer.mongoClose m)
          = some ((okDriver.Disconnect
              (NewMongo okDriver 3 zeroConfig emptyWorld).2.driver ctx2 7).1, w3) ∧
        w3.calls = (NewMongo okDriver 3 zeroConfig emptyWorld).2.calls ++
          [DriverCall.Disconnect ctx2 7] ∧
        ∃ mg3, w3.heap[m]? = some mg3 ∧ mg3.Client = none :=
  NewMongo_success okDriver 3 zeroConfig emptyWorld 7 rfl rfl

/-- C9, as stated, fails: `NewMongo` copies no database name. Built from a
configuration with hosts and a replica set, the manager holds the empty name;
and no reading of a database name off the configuration that is non-empty on
some configuration is what the returned manager holds. -/
theorem NewMongo_defaultDatabase_not_copied :
    (NewMongo okDriver 3
        { zeroConfig with Hosts := ["db0:27017"], ReplicaSet := "rs0" } emptyWorld).2.heap[0]?
      = some { Client := some 7, defaultDatabase := "" } ∧
    ¬ ∃ dbName : Config → String, (∃ config, dbName config ≠ "") ∧
        ∀ (config : Config) (m : MongoPtr) (mg : Mongo),
          (NewMongo okDriver 3 config emptyWorld).1 = (some m, none) →
          (NewMongo okDriver 3 config emptyWorld).2.heap[m]? = some mg →
          mg.defaultDatabase = dbName config := by
  constructor
  · rfl
  · rintro ⟨dbName, ⟨config, hne⟩, hall⟩
    have h := hall config 0 { Client := some 7, defaultDatabase := "" } rfl rfl
    exact hne h.symm

/-- C9, amended: for every configuration for which construction succeeds, the
manager `NewMongo` returns has the empty string as its default-database name,
whatever the configuration holds, and its `DefaultDatabase` and `Collection`
are scoped to the database of that name; on every manager that holds a client
the two accessors are scoped to the database named by the manager's
default-database field, `Collection` also to the collection name it is given,
which is not validated. -/
theorem NewMongo_defaultDatabase_unset {σ : Type} (D : Driver σ) (ctx : Context)
    (config : Config) (w : World σ) (client : ClientPtr)
    (hconn : (D.Connect w.driver ctx (clientOptions config)).1 = .ok client)
    (hping : (D.Ping (D.Connect w.driver ctx (clientOptions config)).2 ctx client
      readpref.Primary).1 = none) :
    (∃ m mg, (NewMongo D ctx config w).1 = (some m, none) ∧
      (NewMongo D ctx config w).2.heap[m]? = some mg ∧
      mg.defaultDatabase = "" ∧
      mg.DefaultDatabase = some { client := client, name := "" } ∧
      ∀ colName : String, mg.Collection colName =
        some { database := { client := client, name := "" }, name := colName }) ∧
    ∀ (mg2 : Mongo) (c2 : ClientPtr), mg2.Client = some c2 →
      mg2.DefaultDatabase = some { client := c2, name := mg2.defaultDatabase } ∧
      ∀ colName : String, mg2.Collection colName =
        some { database := { client := c2, name := mg2.defaultDatabase }, name := colName } := by
  constructor
  · rw [NewMongo_ok D ctx config w client hconn hping]
    exact ⟨w.heap.length, { Client := some client, defaultDatabase := "" }, rfl,
      getElem?_last _ _, rfl, rfl, fun _ => rfl⟩
  · intro mg2 c2 h2
    unfold Mongo.DefaultDatabase Mongo.Collection mongoDatabase
    rw [h2]
    exact ⟨rfl, fun _ => rfl⟩

/-- Witness of C9: a manager built at process start from a configuration
naming one host holds the empty name. -/
theorem NewMongo_defaultDatabase_unset_witness :
    ∃ m mg, (NewMongo okDriver 3 { zeroConfig with Hosts := ["db0:27017"] } emptyWorld).1
        = (some m, none) ∧
      (NewMongo okDriver 3 { zeroConfig with Hosts := ["db0:27017"] } emptyWorld).2.heap[m]?
        = some mg ∧
      mg.defaultDatabase = "" ∧
      mg.DefaultDatabase = some { client := 7, name := "" } ∧
      ∀ colName : String, mg.Collection colName =
        some { database := { client := 7, name := "" }, name := colName } :=
  (NewMongo_defaultDatabase_unset okDriver 3 { zeroConfig with Hosts := ["db0:27017"] }
    emptyWorld 7 rfl rfl).1

end GinnyMongo
